import Mathlib

/-!
Verification of the ecobee-influxdb connector against its specification.

The development shallowly embeds the relevant Go source:
- derived metrics (`IndoorHumidityRecommendation`) over ℚ (the Go code only
  compares the float argument, never computes with it, so ℚ models the
  comparisons exactly);
- the equipment-status flag setter (`EquipmentStatus.Set`) and the status-list
  fold of `buildEquipmentStatus`;
- the main-loop window planner (`mainStep`), with calendar dates modelled as
  integer day numbers (the Go code parses `YYYY-MM-DD` dates to midnight
  instants and adds whole multiples of 24 h; a fixed-offset clock is assumed,
  DST is out of scope) and `time.Parse` abstracted as a `String → Option Int`
  parameter whose `none` result stands for Go's ignored parse error yielding
  the zero `time.Time` (day 0);
- the runtime-report request builder and the report post-processing of
  `GetRuntimeReport`, with instants modelled as integer minutes;
- the revision-list processing of `GetThermostatSummary`;
- the field mapper inlined in `doUpdate`, with `strconv.Atoi` / `ParseFloat`
  abstracted as total functions (Go discards their errors, so only the
  returned value matters);
- the `doUpdate` iteration: `retry.Do` over a list of per-attempt external
  outcomes, followed by the watermark-file write on success.

Go panics (out-of-range indexing) are modelled by a dedicated result
constructor, distinct from returned errors.
-/

/-! ## Derived metrics (src/unnamed/part_000, IndoorHumidityRecommendation) -/

/-- Embeds `IndoorHumidityRecommendation` from `src/unnamed/part_000`:
the descending if-chain over the outdoor temperature. -/
def IndoorHumidityRecommendation (outdoorTempF : ℚ) : Int :=
  if outdoorTempF ≥ 50 then 50
  else if outdoorTempF ≥ 40 then 45
  else if outdoorTempF ≥ 30 then 40
  else if outdoorTempF ≥ 20 then 35
  else if outdoorTempF ≥ 10 then 30
  else if outdoorTempF ≥ 0 then 25
  else if outdoorTempF ≥ -10 then 20
  else 15

/-! ## Equipment status (src/ecobee/functions.go, EquipmentStatus.Set and
buildEquipmentStatus) -/

/-- Embeds the fifteen boolean fields of `EquipmentStatus` that
`EquipmentStatus.Set` can address. -/
structure EquipmentStatus where
  HeatPump : Bool
  HeatPump2 : Bool
  HeatPump3 : Bool
  CompCool1 : Bool
  CompCool2 : Bool
  AuxHeat1 : Bool
  AuxHeat2 : Bool
  AuxHeat3 : Bool
  Fan : Bool
  Humidifier : Bool
  Dehumidifier : Bool
  Ventilator : Bool
  Economizer : Bool
  CompHotWater : Bool
  AuxHotWater : Bool
deriving DecidableEq

/-- The all-false zero value of `EquipmentStatus` (Go's `var es EquipmentStatus`). -/
def emptyEquipmentStatus : EquipmentStatus :=
  ⟨false, false, false, false, false, false, false, false, false, false,
   false, false, false, false, false⟩

/-- Embeds `EquipmentStatus.Set` from `src/ecobee/functions.go`: the switch on
the field name, with no default case. -/
def EquipmentStatus.Set (es : EquipmentStatus) (field : String) (state : Bool) :
    EquipmentStatus :=
  if field = "heatPump" then { es with HeatPump := state }
  else if field = "heatPump2" then { es with HeatPump2 := state }
  else if field = "heatPump3" then { es with HeatPump3 := state }
  else if field = "compCool1" then { es with CompCool1 := state }
  else if field = "compCool2" then { es with CompCool2 := state }
  else if field = "auxHeat1" then { es with AuxHeat1 := state }
  else if field = "auxHeat2" then { es with AuxHeat2 := state }
  else if field = "auxHeat3" then { es with AuxHeat3 := state }
  else if field = "fan" then { es with Fan := state }
  else if field = "humidifier" then { es with Humidifier := state }
  else if field = "dehumidifier" then { es with Dehumidifier := state }
  else if field = "ventilator" then { es with Ventilator := state }
  else if field = "economizer" then { es with Economizer := state }
  else if field = "compHotWater" then { es with CompHotWater := state }
  else if field = "auxHotWater" then { es with AuxHotWater := state }
  else es

/-- The fifteen field names recognized by `EquipmentStatus.Set`. -/
def recognizedEquipmentNames : List String :=
  ["heatPump", "heatPump2", "heatPump3", "compCool1", "compCool2",
   "auxHeat1", "auxHeat2", "auxHeat3", "fan", "humidifier",
   "dehumidifier", "ventilator", "economizer", "compHotWater", "auxHotWater"]

/-- Embeds the status loop of `buildEquipmentStatus`: fold `Set _ _ true`
over the comma-separated status names. -/
def processStatuses (statuses : List String) (es : EquipmentStatus) :
    EquipmentStatus :=
  statuses.foldl (fun e s => e.Set s true) es

/-! ## Window planner (src/unnamed/part_000, main loop) -/

/-- What one pass of the `for true` loop in `main` does before `doUpdate`:
either call `os.Exit(0)` ("Nothing to do!") or run `doUpdate` on the window
`[startDay, endDay]`. -/
inductive MainAction where
  | exitZero
  | runWindow (startDay endDay : Int)
deriving DecidableEq

/-- Embeds the planning half of `main`'s loop from `src/unnamed/part_000`.
`pd` abstracts `time.Parse("2006-01-02", ·)` as a day number; its ignored
error (`left_off, _ := time.Parse(...)`) leaves Go's zero `time.Time`,
modelled as day 0. `nowDay` is the civil day of `time.Now()`; the
format-then-reparse of `now.Add(-24h)` yields the previous civil day
`nowDay - 1`. `start = left_off + 1 day`, `projected_end = start + 14 days`,
`end = yesterday` when `projected_end.After(yesterday)`. -/
def mainStep (pd : String → Option Int) (lastData : String) (nowDay : Int) :
    MainAction :=
  let leftOff := (pd lastData).getD 0
  let yesterday := nowDay - 1
  if ¬ leftOff < yesterday then
    .exitZero
  else
    let start := leftOff + 1
    let projectedEnd := start + 14
    let e := if projectedEnd > yesterday then yesterday else projectedEnd
    .runWindow start e

/-! ## Runtime-report request (src/ecobee/functions.go, GetRuntimeReport,
lines 185-234) -/

/-- Embeds the `col_to_include` construction of `GetRuntimeReport`: the seven
core columns, then conditional appends.  Note the source has no branch for
`WriteHeatPump2` (`wHP2` here), and takes no start or end date. -/
def runtimeReportColumns (wHum wAux1 wAux2 wHP1 wHP2 wCool1 wCool2 : Bool) :
    List String :=
  let cols0 := ["zoneCoolTemp", "zoneHeatTemp", "zoneAveTemp", "zoneHumidity",
                "outdoorTemp", "outdoorHumidity", "fan"]
  let cols1 := if wHum then cols0 ++ ["humidifier"] else cols0
  let cols2 := if wAux1 then cols1 ++ ["auxHeat1"] else cols1
  let cols3 := if wAux2 then cols2 ++ ["auxHeat2"] else cols2
  let cols4 := if wHP1 then cols3 ++ ["compHeat1"] else cols3
  let cols5 := if wCool1 then cols4 ++ ["compCool1"] else cols4
  let cols6 := if wCool2 then cols5 ++ ["compCool2"] else cols5
  let _ := wHP2
  cols6

/-- The runtime-report request body fields relevant to the claims. -/
structure GetRuntimeReportRequest where
  SelectionMatch : String
  StartDate : String
  EndDate : String
  Columns : String
deriving DecidableEq

/-- Embeds the `GetRuntimeReportRequest` built inside `GetRuntimeReport`
(src/ecobee/functions.go): `StartDate` and `EndDate` are the hardcoded
literal `"2022-02-16"`, `Columns` is the comma-join of
`runtimeReportColumns`. -/
def buildRuntimeReportRequest (thermostatID : String)
    (wHum wAux1 wAux2 wHP1 wHP2 wCool1 wCool2 : Bool) :
    GetRuntimeReportRequest :=
  { SelectionMatch := thermostatID
    StartDate := "2022-02-16"
    EndDate := "2022-02-16"
    Columns := String.intercalate ","
      (runtimeReportColumns wHum wAux1 wAux2 wHP1 wHP2 wCool1 wCool2) }

/-! ## Field mapper (src/unnamed/part_000, inline in doUpdate,
lines 205-248) -/

/-- A typed sink field value: Influx integer, float, or string field. -/
inductive FieldValue where
  | i (n : Int)
  | f (q : ℚ)
  | s (v : String)
deriving DecidableEq

/-- Embeds the if-else chain over `entry.DataFields` in `doUpdate`
(src/unnamed/part_000): one vendor column/value pair to an optional sink
field.  `atoi` abstracts `strconv.Atoi` and `pf` abstracts
`strconv.ParseFloat` (Go discards their errors, so only the returned value
matters).  Columns outside the chain produce no field. -/
def translateOne (atoi : String → Int) (pf : String → ℚ) (k v : String) :
    Option (String × FieldValue) :=
  if k = "auxHeat1" then some ("aux_heat_1_run_time_s", .i (atoi v))
  else if k = "auxHeat2" then some ("aux_heat_2_run_time_s", .i (atoi v))
  else if k = "compCool1" then some ("cool_1_run_time_s", .i (atoi v))
  else if k = "compCool2" then some ("cool_2_run_time_s", .i (atoi v))
  else if k = "compHeat1" then some ("heat_pump_1_run_time_s", .i (atoi v))
  else if k = "compHeat2" then some ("heat_pump_2_run_time_s", .i (atoi v))
  else if k = "humidifier" then some ("humidifier_run_time_s", .i (atoi v))
  else if k = "zoneCoolTemp" then some ("setpoint_cool_°F", .f (pf v))
  else if k = "zoneHeatTemp" then some ("setpoint_heat_°F", .f (pf v))
  else if k = "zoneAveTemp" then some ("temperature_°F", .f (pf v))
  else if k = "zoneHumidity" then some ("humidity_%", .f (pf v))
  else if k = "outdoorTemp" then some ("outdoor_temperature_°F", .f (pf v))
  else if k = "outdoorHumidity" then some ("outdoor_humidity_%", .f (pf v))
  else if k = "hvacMode" then some ("HVAC_mode", .s v)
  else if k = "fan" then some ("fan_run_time_s", .i (atoi v))
  else none

/-- Embeds the `fields` map built per entry in `doUpdate`: every data field
of the entry run through the translation chain, unknown columns dropped. -/
def mapEntryFields (atoi : String → Int) (pf : String → ℚ)
    (dfs : List (String × String)) : List (String × FieldValue) :=
  dfs.filterMap (fun kv => translateOne atoi pf kv.1 kv.2)

/-- The sink type of a field, as the spec's translation table gives it. -/
inductive SinkType where
  | int
  | float
  | str
deriving DecidableEq

/-- Modelled from the spec: the Field Mapper translation table of §4.4,
with the sink field names corrected to the ones the source writes
(degree sign and percent sign; the spec table's `_F` / `_pct` names do not
occur in the source). Ordered as the source's if-else chain. -/
def specFieldTable : List (String × String × SinkType) :=
  [("auxHeat1", "aux_heat_1_run_time_s", .int),
   ("auxHeat2", "aux_heat_2_run_time_s", .int),
   ("compCool1", "cool_1_run_time_s", .int),
   ("compCool2", "cool_2_run_time_s", .int),
   ("compHeat1", "heat_pump_1_run_time_s", .int),
   ("compHeat2", "heat_pump_2_run_time_s", .int),
   ("humidifier", "humidifier_run_time_s", .int),
   ("zoneCoolTemp", "setpoint_cool_°F", .float),
   ("zoneHeatTemp", "setpoint_heat_°F", .float),
   ("zoneAveTemp", "temperature_°F", .float),
   ("zoneHumidity", "humidity_%", .float),
   ("outdoorTemp", "outdoor_temperature_°F", .float),
   ("outdoorHumidity", "outdoor_humidity_%", .float),
   ("hvacMode", "HVAC_mode", .str),
   ("fan", "fan_run_time_s", .int)]

/-- First-match lookup in an association list keyed by strings. -/
def tableLookup {α : Type} : List (String × α) → String → Option α
  | [], _ => none
  | (k, a) :: rest, s => if s = k then some a else tableLookup rest s

/-- Builds the typed value a table row prescribes for a raw string value. -/
def applyType (atoi : String → Int) (pf : String → ℚ) :
    SinkType → String → FieldValue
  | .int, v => .i (atoi v)
  | .float, v => .f (pf v)
  | .str, v => .s v

/-- Modelled from the spec: map one vendor column through the §4.4 table. -/
def specTranslateOne (atoi : String → Int) (pf : String → ℚ) (k v : String) :
    Option (String × FieldValue) :=
  (tableLookup specFieldTable k).map (fun p => (p.1, applyType atoi pf p.2 v))

/-- Modelled from the spec: the Field Mapper applied to all data fields of
an entry, unknown columns dropped. -/
def specMapEntryFields (atoi : String → Int) (pf : String → ℚ)
    (dfs : List (String × String)) : List (String × FieldValue) :=
  dfs.filterMap (fun kv => specTranslateOne atoi pf kv.1 kv.2)

/-! ## String splitting

`strings.Split` from the Go standard library, embedded at the character
level (the source only ever splits on the one-character separators `","`
and `":"`). -/

/-- Splits a character list at every occurrence of `c`; the separator is
dropped, adjacent separators give empty groups, and the empty list gives
one empty group, exactly as `strings.Split`. -/
def splitChars (c : Char) : List Char → List (List Char)
  | [] => [[]]
  | ch :: rest =>
    if ch = c then
      [] :: splitChars c rest
    else
      match splitChars c rest with
      | [] => [[ch]]
      | g :: gs => (ch :: g) :: gs

/-- Embeds `strings.Split(s, c)` for a one-character separator. -/
def goSplit (s : String) (c : Char) : List String :=
  (splitChars c s.data).map String.mk

/-! ## Runtime-report post-processing (src/ecobee/functions.go,
GetRuntimeReport, lines 259-366) -/

/-- Embeds `RuntimeReportDataEntry` from `src/ecobee/functions.go`.
`ReportTime` is in integer minutes; `DataFields` keeps the vendor column
to raw string value mapping as an association list. -/
structure RuntimeReportDataEntry where
  ReportTime : Int
  DataFields : List (String × String)
deriving DecidableEq

/-- One element of the response's `ReportList`. -/
structure ReportListItem where
  ThermostatIdentifier : String
  RowList : List String
deriving DecidableEq

/-- The runtime-report response fields the post-processing reads. -/
structure RuntimeReportResponse where
  StartDate : String
  StartInterval : Int
  Columns : String
  ReportList : List ReportListItem
deriving DecidableEq

/-- Splits a raw report row on commas (`strings.Split(entry, ",")`). -/
def rowFields (row : String) : List String := goSplit row ','

/-- The `d + " " + t` string built from a row's first two fields;
`none` models the Go panic when the row has fewer than two fields
(`fields[1]` out of range). -/
def rowDateTimeStr (row : String) : Option String :=
  match rowFields row with
  | d :: t :: _ => some (d ++ " " ++ t)
  | _ => none

/-- The local instant a row parses to, `pdt` abstracting
`time.Parse("2006-01-02 15:04:05", ·)` in minutes; the ignored parse error
(`entry_time, _ := time.Parse(...)`) leaves Go's zero time, modelled as 0. -/
def rowLocalTime (pdt : String → Option Int) (row : String) : Int :=
  match rowDateTimeStr row with
  | some s => (pdt s).getD 0
  | none => 0

/-- Embeds the per-row body of the inner loop of `GetRuntimeReport`:
parse the row's local timestamp (error ignored), add the offset, and map
column `i` of the header to row field `i+2`.  `none` models the Go panic
when the row has fewer than two fields or fewer than `cols.length + 2`
fields (`fields[i+2]` out of range). -/
def rowEntry (pdt : String → Option Int) (offset : Int) (cols : List String)
    (row : String) : Option RuntimeReportDataEntry :=
  match rowFields row with
  | d :: t :: rest =>
    if cols.length ≤ rest.length then
      some { ReportTime := (pdt (d ++ " " ++ t)).getD 0 + offset
             DataFields := cols.zip rest }
    else none
  | _ => none

/-- Runs `f` over a list, failing the whole computation on the first
`none` (a loop whose body can panic). -/
def optionMapList {α β : Type} (f : α → Option β) : List α → Option (List β)
  | [] => some []
  | a :: as =>
    match f a with
    | none => none
    | some b =>
      match optionMapList f as with
      | none => none
      | some bs => some (b :: bs)

/-- Embeds the per-thermostat body of the outer loop of `GetRuntimeReport`:
read the first row (panic when `RowList` is empty or the first row has
fewer than two fields), compute the single `time_offset`, then build every
row's entry with that offset. -/
def processReport (pdt : String → Option Int) (utcStart : Int)
    (cols : List String) (rep : ReportListItem) :
    Option (String × List RuntimeReportDataEntry) :=
  match rep.RowList with
  | [] => none
  | first :: _ =>
    match rowDateTimeStr first with
    | none => none
    | some s =>
      let offset := utcStart - (pdt s).getD 0
      match optionMapList (rowEntry pdt offset cols) rep.RowList with
      | none => none
      | some entries => some (rep.ThermostatIdentifier, entries)

/-- Result of the post-processing of `GetRuntimeReport`: a returned value,
a returned error, or a Go panic. -/
inductive GRRResult where
  | ok (data : List (String × List RuntimeReportDataEntry))
  | error (msg : String)
  | panicked
deriving DecidableEq

/-- True exactly on the `error` constructor. -/
def GRRResult.isError : GRRResult → Bool
  | .error _ => true
  | _ => false

/-- Embeds the post-processing of `GetRuntimeReport`
(src/ecobee/functions.go, lines 259-366): parse `StartDate` (this error IS
returned), add `StartInterval * 5` minutes, split the column header, then
process every report of `ReportList`.  `pd` abstracts
`time.Parse("2006-01-02", ·)` and `pdt` abstracts
`time.Parse("2006-01-02 15:04:05", ·)`, both in minutes. -/
def getRuntimeReportProcess (pd pdt : String → Option Int)
    (r : RuntimeReportResponse) : GRRResult :=
  match pd r.StartDate with
  | none => .error ("cannot parse start date: " ++ r.StartDate)
  | some t0 =>
    let utcStart := t0 + r.StartInterval * 5
    let cols := goSplit r.Columns ','
    match optionMapList (processReport pdt utcStart cols) r.ReportList with
    | none => .panicked
    | some data => .ok data

/-! ## Thermostat summary (src/ecobee/functions.go, GetThermostatSummary,
lines 128-181, and buildEquipmentStatus, lines 425-449) -/

/-- Embeds `buildEquipmentStatus`: `SplitN(input, ":", 2)`, panic when the
input has no colon (`split[1]` out of range), empty right-hand side gives
the zero status, otherwise fold `Set` over the comma-separated names. -/
def buildEquipmentStatus (input : String) : Option EquipmentStatus :=
  match goSplit input ':' with
  | [] => none
  | [_] => none
  | _ :: r1 :: rest =>
    let rhs := String.intercalate ":" (r1 :: rest)
    if rhs = "" then some emptyEquipmentStatus
    else some (processStatuses (goSplit rhs ',') emptyEquipmentStatus)

/-- Embeds `strconv.ParseBool`: the twelve accepted literals. -/
def parseBoolGo (s : String) : Option Bool :=
  if s = "1" ∨ s = "t" ∨ s = "T" ∨ s = "true" ∨ s = "TRUE" ∨ s = "True" then
    some true
  else if s = "0" ∨ s = "f" ∨ s = "F" ∨ s = "false" ∨ s = "FALSE" ∨ s = "False" then
    some false
  else none

/-- One thermostat summary, from the colon-separated revision entry. -/
structure ThermostatSummary where
  Identifier : String
  Name : String
  Connected : Bool
  ThermostatRevision : String
  AlertsRevision : String
  RuntimeRevision : String
  IntervalRevision : String
  EquipmentStatus : EquipmentStatus
deriving DecidableEq

/-- Per-item result inside the `GetThermostatSummary` loop. -/
inductive ItemResult where
  | ok (ts : ThermostatSummary)
  | error (msg : String)
  | panicked
deriving DecidableEq

/-- Embeds one pass of the loop body of `GetThermostatSummary`
(src/ecobee/functions.go, lines 151-179): split the revision entry on
colons, fail with a descriptive error when it has fewer than seven fields,
build the equipment status (which can panic), then `ParseBool` the
connected flag, failing with a descriptive error when unparsable. -/
def processSummaryItem (rev statusStr : String) : ItemResult :=
  let rl := goSplit rev ':'
  if rl.length < 7 then
    .error ("invalid RevisionList, not enough fields: " ++ rev)
  else
    match buildEquipmentStatus statusStr with
    | none => .panicked
    | some es =>
      match parseBoolGo (rl.getD 2 "") with
      | none => .error ("error from ParseBool(" ++ rl.getD 2 "" ++ ")")
      | some c =>
        .ok { Identifier := rl.getD 0 ""
              Name := rl.getD 1 ""
              Connected := c
              ThermostatRevision := rl.getD 3 ""
              AlertsRevision := rl.getD 4 ""
              RuntimeRevision := rl.getD 5 ""
              IntervalRevision := rl.getD 6 ""
              EquipmentStatus := es }

/-- Result of `GetThermostatSummary`'s loop. -/
inductive TSResult where
  | ok (tsm : List (String × ThermostatSummary))
  | error (msg : String)
  | panicked
deriving DecidableEq

/-- Embeds `for i := 0; i < r.ThermostatCount; i++` of
`GetThermostatSummary`: index both lists (panic when `ThermostatCount`
exceeds a list's length), process each item, keying the result map by the
entry's first colon-field. -/
def summaryLoop (revs stats : List String) :
    Nat → Nat → List (String × ThermostatSummary) → TSResult
  | _, 0, acc => .ok acc.reverse
  | i, n + 1, acc =>
    match revs.get? i, stats.get? i with
    | some rev, some st =>
      match processSummaryItem rev st with
      | .error m => .error m
      | .panicked => .panicked
      | .ok ts => summaryLoop revs stats (i + 1) n (((goSplit rev ':').getD 0 "", ts) :: acc)
    | _, _ => .panicked

/-- The thermostat-summary response fields the loop reads. -/
structure ThermostatSummaryResponse where
  ThermostatCount : Nat
  RevisionList : List String
  StatusList : List String
deriving DecidableEq

/-- Embeds the whole summary processing of `GetThermostatSummary`. -/
def thermostatSummaryProcess (r : ThermostatSummaryResponse) : TSResult :=
  summaryLoop r.RevisionList r.StatusList 0 r.ThermostatCount []

/-! ## One sync iteration (src/unnamed/part_000, doUpdate, lines 145-271) -/

/-- The external outcomes one attempt of the `retry.Do` closure observes:
the `GetThermostats` call, the `GetRuntimeReport` call, and the per
thermostat Influx `Write` result (`none` = success, `some msg` = error). -/
structure AttemptEnv where
  thermostats : Except String (List (String × String × String × String))
  runtimeReport : Except String (List (String × List RuntimeReportDataEntry))
  writeErr : String → Option String

/-- Embeds the per-thermostat write loop of `doUpdate`: the first failing
`influxClient.Write` aborts the closure with its error. -/
def writeAll (writeErr : String → Option String) :
    List (String × List RuntimeReportDataEntry) → Except String Unit
  | [] => .ok ()
  | (tid, _) :: rest =>
    match writeErr tid with
    | some e => .error e
    | none => writeAll writeErr rest

/-- Embeds one attempt of the `retry.Do` closure in `doUpdate`
(src/unnamed/part_000, lines 147-264): a `GetThermostats` error is
returned (and so retried); the `GetRuntimeReport` error is discarded
(`_ = rr_err`), a failed fetch leaving the nil map, so the write loop runs
over nothing and the closure returns success. -/
def attemptOnce (env : AttemptEnv) : Except String Unit :=
  match env.thermostats with
  | .error e => .error e
  | .ok _ =>
    let reportData :=
      match env.runtimeReport with
      | .error _ => []
      | .ok d => d
    writeAll env.writeErr reportData

/-- Embeds `retry.Do`: run the closure once per attempt environment, in
order, stopping at the first success; when every attempt fails (or the
list is empty) the last error is returned. -/
def retryDo : List AttemptEnv → Except String Unit
  | [] => .error "no attempts"
  | [e] => attemptOnce e
  | e :: e2 :: rest =>
    match attemptOnce e with
    | .ok _ => .ok ()
    | .error _ => retryDo (e2 :: rest)

/-- Embeds `doUpdate` (src/unnamed/part_000, lines 145-271): on `retry.Do`
success, overwrite `last_data.txt` with `end_str + "\n"`; on exhausted
retries, `log.Fatal` (process dies, file untouched).  Returns the file
content after the call and whether the process died. -/
def doUpdateModel (envs : List AttemptEnv) (wmFile : String)
    (endStr : String) : String × Bool :=
  match retryDo envs with
  | .ok _ => (endStr ++ "\n", false)
  | .error _ => (wmFile, true)

/-! ## Helper lemmas -/

/-- Setting an unrecognized field name changes nothing. -/
theorem set_unrecognized_noop (field : String)
    (h : field ∉ recognizedEquipmentNames) (es : EquipmentStatus)
    (state : Bool) : es.Set field state = es := by
  simp only [recognizedEquipmentNames, List.mem_cons, List.mem_singleton,
    not_or] at h
  obtain ⟨h1, h2, h3, h4, h5, h6, h7, h8, h9, h10, h11, h12, h13, h14, h15⟩ := h
  simp [EquipmentStatus.Set, h1, h2, h3, h4, h5, h6, h7, h8, h9, h10, h11,
    h12, h13, h14, h15]

/-! ## Claims -/

/-- C9: for every outdoor temperature t (in °F), `IndoorHumidityRecommendation`
is the step function 50 on t ≥ 50, 45 on 40 ≤ t < 50, 40 on 30 ≤ t < 40,
35 on 20 ≤ t < 30, 30 on 10 ≤ t < 20, 25 on 0 ≤ t < 10, 20 on −10 ≤ t < 0,
and 15 below −10; in particular it maps 25 to 35, −20 to 15, and the
boundary 50 to 50. -/
theorem claim_C9_indoor_humidity_steps (t : ℚ) :
    (50 ≤ t → IndoorHumidityRecommendation t = 50) ∧
    (40 ≤ t → t < 50 → IndoorHumidityRecommendation t = 45) ∧
    (30 ≤ t → t < 40 → IndoorHumidityRecommendation t = 40) ∧
    (20 ≤ t → t < 30 → IndoorHumidityRecommendation t = 35) ∧
    (10 ≤ t → t < 20 → IndoorHumidityRecommendation t = 30) ∧
    (0 ≤ t → t < 10 → IndoorHumidityRecommendation t = 25) ∧
    (-10 ≤ t → t < 0 → IndoorHumidityRecommendation t = 20) ∧
    (t < -10 → IndoorHumidityRecommendation t = 15) ∧
    IndoorHumidityRecommendation 25 = 35 ∧
    IndoorHumidityRecommendation (-20) = 15 ∧
    IndoorHumidityRecommendation 50 = 50 := by
  refine ⟨?_, ?_, ?_, ?_, ?_, ?_, ?_, ?_, ?_, ?_, ?_⟩ <;>
  · intros
    unfold IndoorHumidityRecommendation
    split_ifs <;> first | rfl | linarith

/-- C9 witness: the band theorem applied at 45 and at −5. -/
theorem claim_C9_witness :
    IndoorHumidityRecommendation 45 = 45 ∧
    IndoorHumidityRecommendation (-5) = 20 :=
  ⟨(claim_C9_indoor_humidity_steps 45).2.1 (by norm_num) (by norm_num),
   (claim_C9_indoor_humidity_steps (-5)).2.2.2.2.2.2.1 (by norm_num) (by norm_num)⟩

/-- C10: `EquipmentStatus.Set` with a field name outside the fifteen
recognized equipment names leaves every field unchanged, so the status-list
fold of `buildEquipmentStatus` silently skips unknown status names. -/
theorem claim_C10_set_unknown_noop (es : EquipmentStatus) (field : String)
    (state : Bool) (rest : List String)
    (h : field ∉ recognizedEquipmentNames) :
    es.Set field state = es ∧
    processStatuses (field :: rest) es = processStatuses rest es := by
  refine ⟨set_unrecognized_noop field h es state, ?_⟩
  simp only [processStatuses, List.foldl_cons,
    set_unrecognized_noop field h es true]

/-- C10 witness: the unknown name "blower" is a no-op on the zero status. -/
theorem claim_C10_witness :
    ("blower" ∉ recognizedEquipmentNames) ∧
    EquipmentStatus.Set emptyEquipmentStatus "blower" true = emptyEquipmentStatus ∧
    processStatuses ["blower"] emptyEquipmentStatus =
      processStatuses [] emptyEquipmentStatus := by
  have h : "blower" ∉ recognizedEquipmentNames := by decide
  exact ⟨h, (claim_C10_set_unknown_noop emptyEquipmentStatus "blower" true [] h).1,
    (claim_C10_set_unknown_noop emptyEquipmentStatus "blower" true [] h).2⟩

/-- C2 counterexample: with watermark day 100 and now on day 200, the
planner emits the window [101, 115], whose end is not min(start+13,
yesterday) = 114 and whose span exceeds 13 days. -/
theorem claim_C2_counterexample :
    mainStep (fun s => if s = "w" then some 100 else none) "w" 200 =
      MainAction.runWindow 101 115 ∧
    (115 : Int) ≠ min (101 + 13) (200 - 1) ∧
    ¬ ((115 : Int) - 101 ≤ 13) := by
  refine ⟨by decide, by decide, by decide⟩

/-- C2 amended: for every valid watermark w and current day, the planned
window satisfies start = w + 1 and end = min(start + 14, yesterday), hence
end ≤ now − 1 and end − start ≤ 14 (each fetch spans at most 15 calendar
days inclusive). -/
theorem claim_C2_amended (pd : String → Option Int) (s : String)
    (nowDay w : Int) (hw : pd s = some w) (hlt : w < nowDay - 1) :
    mainStep pd s nowDay =
      MainAction.runWindow (w + 1) (min (w + 1 + 14) (nowDay - 1)) ∧
    min (w + 1 + 14) (nowDay - 1) ≤ nowDay - 1 ∧
    min (w + 1 + 14) (nowDay - 1) - (w + 1) ≤ 14 := by
  have hcond : ¬ ¬ w < nowDay - 1 := not_not_intro hlt
  refine ⟨?_, by omega, by omega⟩
  simp only [mainStep, hw, Option.getD_some]
  rw [if_neg hcond]
  split_ifs with h
  · congr 1
    omega
  · congr 1
    omega

/-- C2 amended witness: watermark day 5, now day 10. -/
theorem claim_C2_witness :
    mainStep (fun _ => some 5) "x" 10 =
      MainAction.runWindow (5 + 1) (min (5 + 1 + 14) (10 - 1)) ∧
    min ((5 : Int) + 1 + 14) (10 - 1) ≤ 10 - 1 ∧
    min ((5 : Int) + 1 + 14) (10 - 1) - (5 + 1) ≤ 14 :=
  claim_C2_amended (fun _ => some 5) "x" 10 5 rfl (by decide)

/-- C4 counterexample: with the watermark equal to yesterday (day 100, now
day 101) the loop body is `os.Exit(0)` — the process terminates instead of
idling and re-planning. -/
theorem claim_C4_counterexample :
    mainStep (fun s => if s = "2022-01-01" then some 100 else none)
      "2022-01-01" 101 = MainAction.exitZero := by
  decide

/-- C4 amended: whenever the planner finds no window (watermark ≥
yesterday), no fetch and no sink write occur and the process terminates
immediately with exit code 0 (it does not idle and re-plan). -/
theorem claim_C4_amended (pd : String → Option Int) (s : String)
    (nowDay : Int) (h : nowDay - 1 ≤ (pd s).getD 0) :
    mainStep pd s nowDay = MainAction.exitZero := by
  simp only [mainStep]
  rw [if_pos (not_lt.mpr h)]

/-- C4 amended witness: watermark day 100, now day 101. -/
theorem claim_C4_witness :
    mainStep (fun _ => some 100) "w" 101 = MainAction.exitZero :=
  claim_C4_amended (fun _ => some 100) "w" 101 (by decide)

/-- C8 counterexample: with the watermark file unparsable (every parse
fails, yielding Go's zero time, day 0) and now on day 100, the planner
does not report "nothing to do": it schedules the window [1, 15] counted
from the zero date, and a fetch occurs. -/
theorem claim_C8_counterexample :
    mainStep (fun _ => none) "" 100 = MainAction.runWindow 1 15 ∧
    mainStep (fun _ => none) "" 100 ≠ MainAction.exitZero := by
  refine ⟨by decide, by decide⟩

/-- C8 amended: if no watermark is present (file missing or unparsable),
the parse yields the zero date, and whenever that zero date is before
yesterday the planner schedules the window [1, min(15, yesterday)] (days
counted from the zero date) — a fetch does occur; progress is not blocked
until a watermark is seeded. -/
theorem claim_C8_amended (pd : String → Option Int) (s : String)
    (nowDay : Int) (h : pd s = none) (h2 : (2 : Int) ≤ nowDay) :
    mainStep pd s nowDay =
      MainAction.runWindow 1 (if (15 : Int) > nowDay - 1 then nowDay - 1 else 15) ∧
    mainStep pd s nowDay ≠ MainAction.exitZero := by
  have hcond : ¬ ¬ (0 : Int) < nowDay - 1 := by omega
  constructor
  · simp only [mainStep, h, Option.getD_none]
    rw [if_neg hcond]
    norm_num
  · simp only [mainStep, h, Option.getD_none]
    rw [if_neg hcond]
    simp

/-- C8 amended witness: unparsable watermark, now day 100. -/
theorem claim_C8_witness :
    mainStep (fun _ => none) "garbage" 100 =
      MainAction.runWindow 1 (if (15 : Int) > 100 - 1 then 100 - 1 else 15) ∧
    mainStep (fun _ => none) "garbage" 100 ≠ MainAction.exitZero :=
  claim_C8_amended (fun _ => none) "garbage" 100 rfl (by norm_num)

/-- C3: the runtime-report request ignores the caller's dates — `StartDate`
and `EndDate` are always the hardcoded "2022-02-16" — and the column list
never contains "compHeat2", whatever the seven flags (the
`WriteHeatPump2` branch is missing from the source), contradicting the
claim that the request carries the given dates and each optional column
iff its flag. -/
theorem claim_C3_bug :
    (∀ a b c d e f g : Bool,
      (buildRuntimeReportRequest "X" a b c d e f g).StartDate = "2022-02-16" ∧
      (buildRuntimeReportRequest "X" a b c d e f g).EndDate = "2022-02-16" ∧
      "compHeat2" ∉ runtimeReportColumns a b c d e f g) ∧
    (buildRuntimeReportRequest "X" false false false false true false
      false).StartDate ≠ "2022-03-01" := by
  exact ⟨by decide, by decide⟩

/-- C1: evaluating one `doUpdate` iteration shows the watermark file is
advanced to the window end even when the runtime-report fetch fails (the
source discards `rr_err`, so the closure succeeds vacuously), while a sink
write failure with retries exhausted does leave the file unchanged. -/
theorem claim_C1_bug :
    doUpdateModel
      [{ thermostats := .ok [], runtimeReport := .error "fetch failed",
         writeErr := fun _ => none }] "2022-01-01\n" "2022-01-15" =
      ("2022-01-15\n", false) ∧
    doUpdateModel
      [{ thermostats := .ok [],
         runtimeReport := .ok [("t1", [])],
         writeErr := fun _ => some "write failed" }] "2022-01-01\n"
      "2022-01-15" =
      ("2022-01-01\n", true) := by
  exact ⟨rfl, rfl⟩

/-- The source's translation chain agrees pointwise with the corrected
spec table. -/
theorem translateOne_eq_spec (atoi : String → Int) (pf : String → ℚ)
    (k v : String) :
    translateOne atoi pf k v = specTranslateOne atoi pf k v := by
  by_cases h1 : k = "auxHeat1"
  · subst h1; rfl
  by_cases h2 : k = "auxHeat2"
  · subst h2; rfl
  by_cases h3 : k = "compCool1"
  · subst h3; rfl
  by_cases h4 : k = "compCool2"
  · subst h4; rfl
  by_cases h5 : k = "compHeat1"
  · subst h5; rfl
  by_cases h6 : k = "compHeat2"
  · subst h6; rfl
  by_cases h7 : k = "humidifier"
  · subst h7; rfl
  by_cases h8 : k = "zoneCoolTemp"
  · subst h8; rfl
  by_cases h9 : k = "zoneHeatTemp"
  · subst h9; rfl
  by_cases h10 : k = "zoneAveTemp"
  · subst h10; rfl
  by_cases h11 : k = "zoneHumidity"
  · subst h11; rfl
  by_cases h12 : k = "outdoorTemp"
  · subst h12; rfl
  by_cases h13 : k = "outdoorHumidity"
  · subst h13; rfl
  by_cases h14 : k = "hvacMode"
  · subst h14; rfl
  by_cases h15 : k = "fan"
  · subst h15; rfl
  simp only [translateOne, specTranslateOne, specFieldTable, tableLookup,
    if_neg h1, if_neg h2, if_neg h3, if_neg h4, if_neg h5, if_neg h6,
    if_neg h7, if_neg h8, if_neg h9, if_neg h10, if_neg h11, if_neg h12,
    if_neg h13, if_neg h14, if_neg h15]
  rfl

/-- C7 counterexample: a report entry with column "zoneAveTemp" maps to the
sink field "temperature_°F" (degree sign), not to the spec table's
"temperature_F" — the claimed field name occurs nowhere in the mapped
record. -/
theorem claim_C7_counterexample :
    mapEntryFields (fun _ => 0) (fun _ => 0) [("zoneAveTemp", "70.5")] =
      [("temperature_°F", FieldValue.f 0)] ∧
    ((mapEntryFields (fun _ => 0) (fun _ => 0)
      [("zoneAveTemp", "70.5")]).map Prod.fst).contains "temperature_F" =
      false := by
  exact ⟨by decide, by decide⟩

/-- C7 amended: for every entry, the mapped sink record is exactly the
entry's data fields run through the corrected translation table
(float columns named with the degree or percent sign:
zoneAveTemp → temperature_°F, zoneCoolTemp → setpoint_cool_°F,
zoneHeatTemp → setpoint_heat_°F, zoneHumidity → humidity_%,
outdoorTemp → outdoor_temperature_°F, outdoorHumidity →
outdoor_humidity_%, otherwise as in the spec's table, with the stated
types), and a vendor column outside the table yields no field at all. -/
theorem claim_C7_amended (atoi : String → Int) (pf : String → ℚ)
    (dfs : List (String × String)) :
    mapEntryFields atoi pf dfs = specMapEntryFields atoi pf dfs ∧
    (∀ k v, tableLookup specFieldTable k = none →
      translateOne atoi pf k v = none) := by
  constructor
  · simp only [mapEntryFields, specMapEntryFields]
    congr 1
    funext kv
    exact translateOne_eq_spec atoi pf kv.1 kv.2
  · intro k v h
    rw [translateOne_eq_spec, specTranslateOne, h]
    rfl

/-- C7 amended witness: the spec example's entry, and an unknown column. -/
theorem claim_C7_witness :
    mapEntryFields (fun _ => 0) (fun _ => 0)
        [("zoneAveTemp", "70.5"), ("fan", "1")] =
      specMapEntryFields (fun _ => 0) (fun _ => 0)
        [("zoneAveTemp", "70.5"), ("fan", "1")] ∧
    translateOne (fun _ => 0) (fun _ => 0) "unknownColumn" "5" = none := by
  have h := claim_C7_amended (fun _ => 0) (fun _ => 0)
    [("zoneAveTemp", "70.5"), ("fan", "1")]
  exact ⟨h.1, h.2 "unknownColumn" "5" (by decide)⟩

/-- A loop whose body panics on some element panics as a whole. -/
theorem optionMapList_none {α β : Type} (f : α → Option β) {l : List α}
    {a : α} (ha : a ∈ l) (hf : f a = none) : optionMapList f l = none := by
  induction l with
  | nil => cases ha
  | cons hd tl ih =>
    rcases List.mem_cons.mp ha with h | h
    · subst h
      simp [optionMapList, hf]
    · cases hfd : f hd with
      | none => simp [optionMapList, hfd]
      | some b => simp [optionMapList, hfd, ih h]

/-- A row with fewer than two comma-separated fields has no date-time
string (Go panics on `fields[1]`). -/
theorem rowDateTimeStr_none_of_short (row : String)
    (h : (goSplit row ',').length < 2) : rowDateTimeStr row = none := by
  unfold rowDateTimeStr rowFields
  cases hl : goSplit row ',' with
  | nil => rfl
  | cons d rest =>
    cases rest with
    | nil => rfl
    | cons t rest2 =>
      rw [hl] at h
      simp only [List.length_cons] at h
      omega

/-- A row with fewer than two comma-separated fields yields no entry. -/
theorem rowEntry_none_of_short (pdt : String → Option Int) (offset : Int)
    (cols : List String) (row : String)
    (h : (goSplit row ',').length < 2) :
    rowEntry pdt offset cols row = none := by
  unfold rowEntry rowFields
  cases hl : goSplit row ',' with
  | nil => rfl
  | cons d rest =>
    cases rest with
    | nil => rfl
    | cons t rest2 =>
      rw [hl] at h
      simp only [List.length_cons] at h
      omega

/-- An empty `RowList` panics the per-thermostat processing
(`report.RowList[0]` out of range). -/
theorem processReport_none_of_empty (pdt : String → Option Int)
    (utcStart : Int) (cols : List String) (rep : ReportListItem)
    (h : rep.RowList = []) : processReport pdt utcStart cols rep = none := by
  unfold processReport
  rw [h]

/-- Any row with fewer than two comma-separated fields panics the
per-thermostat processing. -/
theorem processReport_none_of_short_row (pdt : String → Option Int)
    (utcStart : Int) (cols : List String) (rep : ReportListItem)
    (row : String) (hrow : row ∈ rep.RowList)
    (h : (goSplit row ',').length < 2) :
    processReport pdt utcStart cols rep = none := by
  cases hl : rep.RowList with
  | nil => exact processReport_none_of_empty pdt utcStart cols rep hl
  | cons first rest =>
    unfold processReport
    rw [hl]
    cases hd : rowDateTimeStr first with
    | none => simp [hd]
    | some s =>
      have hmem : row ∈ first :: rest := hl ▸ hrow
      have hnone : optionMapList
          (rowEntry pdt (utcStart - (pdt s).getD 0) cols) (first :: rest) =
          none :=
        optionMapList_none _ hmem (rowEntry_none_of_short pdt _ cols row h)
      simp [hd, hnone]

/-- C6 counterexample: a response whose report has an empty row list makes
`GetRuntimeReport` panic (index out of range), not return a descriptive
error. -/
theorem claim_C6_counterexample :
    getRuntimeReportProcess (fun s => if s = "D" then some 0 else none)
      (fun _ => none)
      { StartDate := "D", StartInterval := 0, Columns := "",
        ReportList := [{ ThermostatIdentifier := "t1", RowList := [] }] } =
      GRRResult.panicked ∧
    (getRuntimeReportProcess (fun s => if s = "D" then some 0 else none)
      (fun _ => none)
      { StartDate := "D", StartInterval := 0, Columns := "",
        ReportList := [{ ThermostatIdentifier := "t1", RowList := [] }]
      }).isError = false := by
  exact ⟨rfl, rfl⟩

/-- C6 amended: `GetThermostatSummary` returns a descriptive error for a
revision entry with fewer than seven colon-separated fields, and
`GetRuntimeReport` returns a descriptive error for an unparsable report
StartDate; but a report with an empty row list, or any row with fewer than
two comma-separated fields, makes `GetRuntimeReport` panic (index out of
range) rather than return an error (and an unparsable row date or time is
silently replaced by the zero time).  No variant applies a partial
result. -/
theorem claim_C6_amended :
    (∀ (pd pdt : String → Option Int) (r : RuntimeReportResponse),
      pd r.StartDate = none →
      getRuntimeReportProcess pd pdt r =
        GRRResult.error ("cannot parse start date: " ++ r.StartDate)) ∧
    (∀ (pd pdt : String → Option Int) (r : RuntimeReportResponse)
      (t0 : Int) (rep : ReportListItem),
      pd r.StartDate = some t0 → rep ∈ r.ReportList → rep.RowList = [] →
      getRuntimeReportProcess pd pdt r = GRRResult.panicked) ∧
    (∀ (pd pdt : String → Option Int) (r : RuntimeReportResponse)
      (t0 : Int) (rep : ReportListItem) (row : String),
      pd r.StartDate = some t0 → rep ∈ r.ReportList → row ∈ rep.RowList →
      (goSplit row ',').length < 2 →
      getRuntimeReportProcess pd pdt r = GRRResult.panicked) ∧
    (∀ rev st : String, (goSplit rev ':').length < 7 →
      processSummaryItem rev st =
        ItemResult.error ("invalid RevisionList, not enough fields: " ++ rev)) := by
  refine ⟨?_, ?_, ?_, ?_⟩
  · intro pd pdt r h
    simp only [getRuntimeReportProcess, h]
  · intro pd pdt r t0 rep h hrep hempty
    simp only [getRuntimeReportProcess, h]
    rw [optionMapList_none _ hrep
      (processReport_none_of_empty pdt _ _ rep hempty)]
  · intro pd pdt r t0 rep row h hrep hrow hshort
    simp only [getRuntimeReportProcess, h]
    rw [optionMapList_none _ hrep
      (processReport_none_of_short_row pdt _ _ rep row hrow hshort)]
  · intro rev st h
    unfold processSummaryItem
    rw [if_pos h]

/-- C6 amended witness: one concrete instance of each conjunct. -/
theorem claim_C6_witness :
    getRuntimeReportProcess (fun _ => none) (fun _ => none)
      { StartDate := "BAD", StartInterval := 0, Columns := "",
        ReportList := [] } =
      GRRResult.error ("cannot parse start date: " ++ "BAD") ∧
    getRuntimeReportProcess (fun _ => some 0) (fun _ => none)
      { StartDate := "D", StartInterval := 0, Columns := "",
        ReportList := [{ ThermostatIdentifier := "t", RowList := [] }] } =
      GRRResult.panicked ∧
    getRuntimeReportProcess (fun _ => some 0) (fun _ => none)
      { StartDate := "D", StartInterval := 0, Columns := "c",
        ReportList := [{ ThermostatIdentifier := "t", RowList := ["norow"] }] } =
      GRRResult.panicked ∧
    processSummaryItem "a:b" "x:" =
      ItemResult.error ("invalid RevisionList, not enough fields: " ++ "a:b") := by
  refine ⟨claim_C6_amended.1 _ _ _ rfl,
    claim_C6_amended.2.1 _ _ _ 0
      { ThermostatIdentifier := "t", RowList := [] } rfl (by simp) rfl,
    claim_C6_amended.2.2.1 _ _ _ 0
      { ThermostatIdentifier := "t", RowList := ["norow"] } "norow" rfl
      (by simp) (by simp) (by decide),
    claim_C6_amended.2.2.2 _ _ (by decide)⟩

/-- Pointwise inversion of a successful `optionMapList`: aligned elements
of input and output are related by `f`. -/
theorem optionMapList_some_get {α β : Type} (f : α → Option β) :
    ∀ (l : List α) (bs : List β), optionMapList f l = some bs →
      ∀ (i : Nat) (a : α) (b : β), l.get? i = some a → bs.get? i = some b →
      f a = some b := by
  intro l
  induction l with
  | nil =>
    intro bs h i a b ha hb
    simp at ha
  | cons hd tl ih =>
    intro bs h i a b ha hb
    cases hfd : f hd with
    | none => simp [optionMapList, hfd] at h
    | some v =>
      cases hrec : optionMapList f tl with
      | none => simp [optionMapList, hfd, hrec] at h
      | some vs =>
        simp only [optionMapList, hfd, hrec] at h
        injection h with h2
        subst h2
        cases i with
        | zero =>
          simp only [List.get?] at ha hb
          injection ha with ha2
          injection hb with hb2
          subst ha2
          subst hb2
          exact hfd
        | succ n =>
          simp only [List.get?] at ha hb
          exact ih vs hrec n a b ha hb

/-- A successful `getRuntimeReportProcess` comes from a successful map over
the report list, at the `StartDate` instant plus `StartInterval * 5`. -/
theorem grr_ok_inv (pd pdt : String → Option Int)
    (r : RuntimeReportResponse)
    (data : List (String × List RuntimeReportDataEntry)) (t0 : Int)
    (h : getRuntimeReportProcess pd pdt r = GRRResult.ok data)
    (ht : pd r.StartDate = some t0) :
    optionMapList (processReport pdt (t0 + r.StartInterval * 5)
      (goSplit r.Columns ',')) r.ReportList = some data := by
  simp only [getRuntimeReportProcess, ht] at h
  cases hm : optionMapList (processReport pdt (t0 + r.StartInterval * 5)
      (goSplit r.Columns ',')) r.ReportList with
  | none => simp only [hm] at h; simp at h
  | some d =>
    simp only [hm] at h
    injection h with h2
    rw [h2]

/-- A successful per-thermostat processing exposes the first row, its
date-time string, and the per-row map with the single offset. -/
theorem processReport_some_inv (pdt : String → Option Int) (utcStart : Int)
    (cols : List String) (rep : ReportListItem)
    (pr : String × List RuntimeReportDataEntry)
    (h : processReport pdt utcStart cols rep = some pr) :
    ∃ (first : String) (rest : List String) (s : String),
      rep.RowList = first :: rest ∧ rowDateTimeStr first = some s ∧
      optionMapList (rowEntry pdt (utcStart - (pdt s).getD 0) cols)
        rep.RowList = some pr.2 := by
  obtain ⟨tid, rl⟩ := rep
  cases rl with
  | nil => simp [processReport] at h
  | cons first rest =>
    simp only [processReport] at h
    cases hdt : rowDateTimeStr first with
    | none =>
      simp only [hdt] at h
      exact Option.noConfusion h
    | some s =>
      simp only [hdt] at h
      cases hm : optionMapList
          (rowEntry pdt (utcStart - (pdt s).getD 0) cols)
          (first :: rest) with
      | none =>
        simp only [hm] at h
        exact Option.noConfusion h
      | some entries =>
        simp only [hm] at h
        injection h with h2
        refine ⟨first, rest, s, rfl, hdt, ?_⟩
        rw [hm, ← h2]

/-- A produced entry's timestamp is its row's local time plus the offset. -/
theorem rowEntry_time (pdt : String → Option Int) (offset : Int)
    (cols : List String) (row : String) (e : RuntimeReportDataEntry)
    (h : rowEntry pdt offset cols row = some e) :
    e.ReportTime = rowLocalTime pdt row + offset := by
  cases hl : rowFields row with
  | nil => simp [rowEntry, hl] at h
  | cons d rest1 =>
    cases rest1 with
    | nil => simp [rowEntry, hl] at h
    | cons t rest =>
      simp only [rowEntry, hl] at h
      by_cases hc : cols.length ≤ rest.length
      · rw [if_pos hc] at h
        injection h with h2
        subst h2
        simp only [rowLocalTime, rowDateTimeStr, hl]
      · rw [if_neg hc] at h
        simp at h

/-- C5: in every successful fetch, each produced entry's timestamp equals
that row's parsed local date-time plus the single per-thermostat offset
`(parse(StartDate) + StartInterval × 5 min) − (first row's parsed local
date-time)`; in particular the first entry's timestamp equals
`parse(StartDate) + StartInterval × 5 min`. -/
theorem claim_C5_timestamp_offset (pd pdt : String → Option Int)
    (r : RuntimeReportResponse)
    (data : List (String × List RuntimeReportDataEntry)) (t0 : Int)
    (j k : Nat) (rep : ReportListItem)
    (pr : String × List RuntimeReportDataEntry)
    (row first : String) (entry : RuntimeReportDataEntry)
    (h : getRuntimeReportProcess pd pdt r = GRRResult.ok data)
    (ht : pd r.StartDate = some t0)
    (hj : r.ReportList.get? j = some rep)
    (hdd : data.get? j = some pr)
    (hk : rep.RowList.get? k = some row)
    (he : pr.2.get? k = some entry)
    (hf : rep.RowList.get? 0 = some first) :
    entry.ReportTime =
      rowLocalTime pdt row +
        ((t0 + r.StartInterval * 5) - rowLocalTime pdt first) ∧
    (k = 0 → entry.ReportTime = t0 + r.StartInterval * 5) := by
  have hmap := grr_ok_inv pd pdt r data t0 h ht
  have hrep : processReport pdt (t0 + r.StartInterval * 5)
      (goSplit r.Columns ',') rep = some pr :=
    optionMapList_some_get _ _ _ hmap j rep pr hj hdd
  obtain ⟨f1, rest, hl_s, hl, hdt, hents⟩ :=
    processReport_some_inv _ _ _ _ _ hrep
  have hf1 : first = f1 := by
    rw [hl] at hf
    simp only [List.get?] at hf
    injection hf with h2
    exact h2.symm
  have hEnt : rowEntry pdt
      ((t0 + r.StartInterval * 5) - (pdt hl_s).getD 0)
      (goSplit r.Columns ',') row = some entry :=
    optionMapList_some_get _ _ _ hents k row entry hk he
  have htime := rowEntry_time _ _ _ _ _ hEnt
  have hfirstLocal : rowLocalTime pdt f1 = (pdt hl_s).getD 0 := by
    simp only [rowLocalTime, hdt]
  constructor
  · rw [htime, hf1, hfirstLocal]
  · intro hk0
    subst hk0
    rw [hk] at hf
    injection hf with h2
    have hrow : rowLocalTime pdt row = (pdt hl_s).getD 0 := by
      rw [h2, hf1, hfirstLocal]
    rw [htime, hrow]
    ring

/-- C5 witness: one concrete report, one row, all hypotheses discharged by
evaluation. -/
theorem claim_C5_witness :
    (⟨0, [("c", "v")]⟩ : RuntimeReportDataEntry).ReportTime =
      rowLocalTime (fun s => if s = "d t" then some 7 else none) "d,t,v" +
        ((0 + 0 * 5) -
          rowLocalTime (fun s => if s = "d t" then some 7 else none)
            "d,t,v") ∧
    ((0 : Nat) = 0 →
      (⟨0, [("c", "v")]⟩ : RuntimeReportDataEntry).ReportTime = 0 + 0 * 5) :=
  claim_C5_timestamp_offset
    (fun s => if s = "D" then some 0 else none)
    (fun s => if s = "d t" then some 7 else none)
    { StartDate := "D", StartInterval := 0, Columns := "c",
      ReportList := [⟨"id", ["d,t,v"]⟩] }
    [("id", [⟨0, [("c", "v")]⟩])] 0 0 0
    ⟨"id", ["d,t,v"]⟩ ("id", [⟨0, [("c", "v")]⟩]) "d,t,v" "d,t,v"
    ⟨0, [("c", "v")]⟩
    (by decide) rfl rfl rfl rfl rfl rfl
